import Mathlib

/-!
Verification development for the proctoring backend
(`backend/app/services/test_session_service.py`,
`backend/app/services/violation_service.py`,
`backend/app/services/face_verification_service.py` and the SQLAlchemy
models they operate on).

The database is embedded shallowly: each table is a list of rows in
insertion order, autoincrement primary keys are explicit counters, and
datetimes are abstract `Time` ticks (the timezone plumbing of the Python
code collapses under this abstraction).  Each service method becomes a
pure Lean function from the database state (plus the values the real code
obtains from the clock, the filesystem or third-party libraries, passed
as explicit arguments) to the new database state and the returned value;
`Except String` models raised `ValueError`s, and a method that swallows
exceptions and returns `None` returns an `Option`.
-/

namespace Proctoring

/-- Abstract timestamps: `datetime` values are modelled as ticks. -/
abbrev Time := Nat

/-- JSON values, for the `details` blob of a violation row. -/
inductive Json where
  | null : Json
  | bool : Bool → Json
  | num : Int → Json
  | str : String → Json
  | arr : List Json → Json
  | obj : List (String × Json) → Json

/-- Row of the `tests` table (`models/test.py`). -/
structure Test where
  test_id : Nat
  skill : String
  num_questions : Nat
  duration : Nat
  deriving Repr, DecidableEq

/-- Row of the `questions` table (`models/question.py`). -/
structure Question where
  id : Nat
  test_id : Nat
  question_text : String
  deriving Repr, DecidableEq

/-- Row of the `options` table (`models/option.py`); named `AnswerOption`
because `Option` is taken by Lean's core type. -/
structure AnswerOption where
  id : Nat
  question_id : Nat
  option_text : String
  is_correct : Bool
  deriving Repr, DecidableEq

/-- Row of the `users` table (`models/user.py`); `name` and `email` are
nullable columns. -/
structure User where
  id : Nat
  name : Option String
  email : Option String
  role : String
  deriving Repr, DecidableEq

/-- Row of the `test_sessions` table (`models/test_session.py`). -/
structure TestSession where
  id : Nat
  test_id : Nat
  user_id : Nat
  user_name : Option String
  user_email : Option String
  start_time : Time
  end_time : Option Time
  score : Option Nat
  total_questions : Option Nat
  percentage : Option ℚ
  status : String
  deriving Repr, DecidableEq

/-- Row of the `violations` table (`models/violation.py`). -/
structure Violation where
  id : Nat
  session_id : Nat
  timestamp : Time
  violation_type : String
  details : Option Json
  filepath : Option String

/-- Row of the `user_responses` table (`models/user_response.py`). -/
structure UserResponse where
  id : Nat
  session_id : Nat
  question_id : Nat
  selected_option_id : Nat
  is_correct : Bool
  deriving Repr, DecidableEq

/-- Row of the `face_verifications` table (`models/face_verification.py`). -/
structure FaceVerification where
  id : Nat
  user_id : Nat
  id_photo_path : Option String
  is_verified : Bool
  verification_date : Time
  match_score : Option ℚ
  liveness_score : Option ℚ
  deriving Repr, DecidableEq

/-- The database: one list per table, rows in insertion order, plus the
autoincrement counters for the integer primary keys. -/
structure DB where
  tests : List Test
  users : List User
  questions : List Question
  options : List AnswerOption
  sessions : List TestSession
  violations : List Violation
  userResponses : List UserResponse
  faceVerifications : List FaceVerification
  nextUserId : Nat
  nextSessionId : Nat
  nextViolationId : Nat
  nextResponseId : Nat
  nextVerificationId : Nat

/-- `schemas/test_session.py` `TestSessionCreate`. -/
structure TestSessionCreate where
  test_id : Nat
  user_id : Nat
  user_name : Option String
  user_email : Option String
  deriving Repr, DecidableEq

/-- One entry of the `answers` list of `TestSessionSubmit`: a dict that may
carry `question_id`, `selected_option_id` and the legacy `answer` key. -/
structure SubmittedAnswer where
  question_id : Option Nat
  selected_option_id : Option Nat
  answer : Option Nat
  deriving Repr, DecidableEq

/-- `schemas/test_session.py` `TestSessionSubmit`. -/
structure TestSessionSubmit where
  session_id : Nat
  answers : List SubmittedAnswer
  end_time : Option Time
  deriving Repr, DecidableEq

/-- Python truthiness of an optional string: `None` and `""` are falsy. -/
def strFalsy : Option String → Bool
  | none => true
  | some s => s.isEmpty

/-- `TestSessionService.create_session`: verify the test exists, require a
`user_email`, look the user up by email (creating a `candidate` user when
absent, which requires a `user_name`), then insert the session with status
`"in_progress"` and the completion columns unset.  `ValueError`s become
`Except.error`; on error the transaction is rolled back, so no new state
is returned. -/
def createSession (db : DB) (req : TestSessionCreate) (now : Time) :
    Except String (DB × TestSession) :=
  match db.tests.find? (fun t => t.test_id == req.test_id) with
  | none => .error "Test not found in database"
  | some _ =>
    match req.user_email with
    | none => .error "user_email is required to create a session"
    | some user_email =>
      if user_email.isEmpty then
        .error "user_email is required to create a session"
      else
        match db.users.find? (fun u => u.email == some user_email) with
        | some user =>
          .ok ({ db with
                 sessions := db.sessions ++
                   [{ id := db.nextSessionId, test_id := req.test_id,
                      user_id := user.id, user_name := user.name,
                      user_email := some user_email, start_time := now,
                      end_time := none, score := none,
                      total_questions := none, percentage := none,
                      status := "in_progress" }],
                 nextSessionId := db.nextSessionId + 1 },
               { id := db.nextSessionId, test_id := req.test_id,
                 user_id := user.id, user_name := user.name,
                 user_email := some user_email, start_time := now,
                 end_time := none, score := none, total_questions := none,
                 percentage := none, status := "in_progress" })
        | none =>
          match req.user_name with
          | none =>
            .error "User not found. Please provide user_name to create a new user."
          | some user_name =>
            if user_name.isEmpty then
              .error "User not found. Please provide user_name to create a new user."
            else
              .ok ({ db with
                     users := db.users ++
                       [{ id := db.nextUserId, name := some user_name,
                          email := some user_email, role := "candidate" }],
                     sessions := db.sessions ++
                       [{ id := db.nextSessionId, test_id := req.test_id,
                          user_id := db.nextUserId,
                          user_name := some user_name,
                          user_email := some user_email, start_time := now,
                          end_time := none, score := none,
                          total_questions := none, percentage := none,
                          status := "in_progress" }],
                     nextUserId := db.nextUserId + 1,
                     nextSessionId := db.nextSessionId + 1 },
                   { id := db.nextSessionId, test_id := req.test_id,
                     user_id := db.nextUserId, user_name := some user_name,
                     user_email := some user_email, start_time := now,
                     end_time := none, score := none,
                     total_questions := none, percentage := none,
                     status := "in_progress" })

/-- The questions stored for a test (`db.query(Question).filter(...)`). -/
def testQuestions (db : DB) (tid : Nat) : List Question :=
  db.questions.filter (fun q => q.test_id == tid)

/-- The options of a list of questions
(`db.query(Option).filter(Option.question_id.in_(...))`). -/
def questionOptions (db : DB) (questions : List Question) : List AnswerOption :=
  db.options.filter (fun o => questions.any (fun q => q.id == o.question_id))

/-- `selected_option_id`, falling back to the legacy `answer` key when
`selected_option_id` is absent. -/
def resolveSelected (a : SubmittedAnswer) : Option Nat :=
  match a.selected_option_id with
  | some v => some v
  | none => a.answer

/-- The per-answer loop of `submit_test`: returns the number of correct
answers, the `UserResponse` rows added (in order), and the next response
id.  A response row is created exactly when both the question and the
selected option are found in the maps built for this test. -/
def processAnswers (questions : List Question) (options : List AnswerOption)
    (sid : Nat) : Nat → List SubmittedAnswer → Nat × List UserResponse × Nat
  | nid, [] => (0, [], nid)
  | nid, a :: rest =>
    match a.question_id, resolveSelected a with
    | some qid, some oid =>
      match questions.find? (fun q => q.id == qid),
            options.find? (fun o => o.id == oid) with
      | some _, some o =>
        let r : UserResponse :=
          { id := nid, session_id := sid, question_id := qid,
            selected_option_id := oid, is_correct := o.is_correct }
        let acc := processAnswers questions options sid (nid + 1) rest
        (acc.1 + (if o.is_correct then 1 else 0), r :: acc.2.1, acc.2.2)
      | _, _ => processAnswers questions options sid nid rest
    | _, _ => processAnswers questions options sid nid rest

/-- The predicate under which an answer contributes to the score: its
question is one of the test's stored questions and its resolved option is
one of the stored options of those questions with `is_correct` true. -/
def answerScores (questions : List Question) (options : List AnswerOption)
    (a : SubmittedAnswer) : Bool :=
  match a.question_id, resolveSelected a with
  | some qid, some oid =>
    (questions.find? (fun q => q.id == qid)).isSome &&
      (match options.find? (fun o => o.id == oid) with
       | some o => o.is_correct
       | none => false)
  | _, _ => false

/-- The score `submit_test` assigns on a test: the number of submitted
answers whose question is stored for the test and whose resolved selected
option is stored for the test's questions with `is_correct` true. -/
def scoredCount (db : DB) (tid : Nat) (answers : List SubmittedAnswer) : Nat :=
  answers.countP
    (answerScores (testQuestions db tid)
      (questionOptions db (testQuestions db tid)))

/-- `TestSessionService.submit_test`.  `commitOk` models whether the final
`db.commit()` persists or raises; on any raise the `except` block rolls
the transaction back, so the original database is returned with the
error. -/
def submitTest (db : DB) (submit : TestSessionSubmit) (now : Time)
    (commitOk : Bool) : Except String TestSession × DB :=
  match db.sessions.find? (fun s => s.id == submit.session_id) with
  | none => (.error "Test session not found", db)
  | some session =>
    let questions := testQuestions db session.test_id
    let options := questionOptions db questions
    let res := processAnswers questions options session.id db.nextResponseId
      submit.answers
    let correct := res.1
    let total := questions.length
    let percentage : ℚ :=
      if 0 < total then (correct : ℚ) / (total : ℚ) * 100 else 0
    let end_time := submit.end_time.getD now
    let session' : TestSession :=
      { session with
        end_time := some end_time,
        score := some correct,
        total_questions := some total,
        percentage := some percentage,
        status := "completed" }
    if commitOk then
      (.ok session',
       { db with
         sessions := db.sessions.map
           (fun s => if s.id == submit.session_id then session' else s),
         userResponses := db.userResponses ++ res.2.1,
         nextResponseId := res.2.2 })
    else (.error "commit failed", db)

/-- `TestSessionService.terminate_session`: missing session raises; a
session already `"terminated"` or `"completed"` is returned untouched;
otherwise the status becomes `"terminated"` and `end_time` is set. -/
def terminateSession (db : DB) (session_id : Nat) (now : Time) :
    Except String (DB × TestSession) :=
  match db.sessions.find? (fun s => s.id == session_id) with
  | none => .error "Session not found"
  | some session =>
    if session.status == "terminated" || session.status == "completed" then
      .ok (db, session)
    else
      let session' : TestSession :=
        { session with status := "terminated", end_time := some now }
      .ok ({ db with
             sessions := db.sessions.map
               (fun s => if s.id == session_id then session' else s) },
           session')

/-- `order_by(TestSession.id)` on a query result, modelled as a stable
insertion sort on the primary key. -/
def sortById (l : List TestSession) : List TestSession :=
  List.insertionSort (fun a b => a.id ≤ b.id) l

/-- `TestSessionService.get_sessions_by_user`. -/
def getSessionsByUser (db : DB) (user_id : Nat) : List TestSession :=
  sortById (db.sessions.filter (fun s => s.user_id == user_id))

/-- `TestSessionService.get_sessions_by_test`. -/
def getSessionsByTest (db : DB) (test_id : Nat) : List TestSession :=
  sortById (db.sessions.filter (fun s => s.test_id == test_id))

/-- `TestSessionService.get_all_sessions`. -/
def getAllSessions (db : DB) : List TestSession :=
  sortById db.sessions

/-- `ViolationService.log_violation`: if no test session with the given id
exists the violation is not saved and `None` is returned; otherwise a
`Violation` row is inserted carrying the given type, the given details or
the empty JSON object, the optional screenshot filepath, and the given
timestamp or the current time `now`. -/
def logViolation (db : DB) (session_id : Nat) (violation_type : String)
    (details : Option Json) (filepath : Option String)
    (timestamp : Option Time) (now : Time) : Option Violation × DB :=
  match db.sessions.find? (fun s => s.id == session_id) with
  | none => (none, db)
  | some _ =>
    let v : Violation :=
      { id := db.nextViolationId, session_id := session_id,
        timestamp := timestamp.getD now, violation_type := violation_type,
        details := some (details.getD (Json.obj [])), filepath := filepath }
    (some v,
     { db with
       violations := db.violations ++ [v],
       nextViolationId := db.nextViolationId + 1 })

/-- The dictionary returned by
`ViolationService.get_session_violations_summary`. -/
structure ViolationsSummary where
  total_violations : Nat
  violation_counts : List (String × Nat)
  violations : List Violation

/-- One step of the `violation_counts` loop: bump the count of a type,
inserting it with count 1 when unseen (Python dicts keep insertion
order, modelled as an association list). -/
def bumpCount (counts : List (String × Nat)) (t : String) :
    List (String × Nat) :=
  if counts.any (fun p => p.1 == t) then
    counts.map (fun p => if p.1 == t then (p.1, p.2 + 1) else p)
  else counts ++ [(t, 1)]

/-- `ViolationService.get_session_violations_summary`: the session's
violations ordered by `timestamp` (modelled as a stable insertion sort),
with the total and the per-type counts. -/
def getSessionViolationsSummary (db : DB) (session_id : Nat) :
    ViolationsSummary :=
  let vs := List.insertionSort (fun a b => a.timestamp ≤ b.timestamp)
    (db.violations.filter (fun v => v.session_id == session_id))
  { total_violations := vs.length,
    violation_counts := vs.foldl (fun cs v => bumpCount cs v.violation_type) [],
    violations := vs }

/-- The dictionary returned by `FaceVerificationService.upload_id_photo`. -/
structure UploadResult where
  success : Bool
  message : String
  verification : Option FaceVerification

/-- `FaceVerificationService.upload_id_photo`.  The values the real code
obtains from the filesystem and the vision libraries are passed in:
`saveOk` (did `FileService.save_binary_data` succeed), `url_path` (the
stored path), `fileExists` and `imageLoadOk` (could the saved file be read
back), and `faceCount` (faces found by `face_recognition`).  When the save
succeeds, the user's existing `FaceVerification` row is updated in place
(new photo path, `is_verified` reset to false, refreshed date) or a new
row is created when none exists, and this update is committed before the
face checks run. -/
def uploadIdPhoto (db : DB) (user_id : Nat) (saveOk : Bool)
    (url_path : String) (fileExists : Bool) (imageLoadOk : Bool)
    (faceCount : Nat) (now : Time) : UploadResult × DB :=
  if !saveOk then
    ({ success := false,
       message := "Failed to save the photo. Please try again.",
       verification := none }, db)
  else
    let branch : FaceVerification × DB :=
      match db.faceVerifications.find? (fun f => f.user_id == user_id) with
      | some f =>
        let f' : FaceVerification :=
          { f with
            id_photo_path := some url_path,
            is_verified := false,
            verification_date := now }
        (f',
         { db with
           faceVerifications := db.faceVerifications.map
             (fun g => if g.id == f.id then f' else g) })
      | none =>
        let f : FaceVerification :=
          { id := db.nextVerificationId, user_id := user_id,
            id_photo_path := some url_path, is_verified := false,
            verification_date := now, match_score := none,
            liveness_score := none }
        (f,
         { db with
           faceVerifications := db.faceVerifications ++ [f],
           nextVerificationId := db.nextVerificationId + 1 })
    let dbv := branch.1
    let db' := branch.2
    if !fileExists then
      ({ success := false, message := "Image file not found",
         verification := none }, db')
    else if !imageLoadOk then
      ({ success := false,
         message := "Failed to process the uploaded image. Please try again with a different image.",
         verification := none }, db')
    else if faceCount == 0 then
      ({ success := false,
         message := "No face detected in the image. Please upload a clear photo of your face.",
         verification := some dbv }, db')
    else
      ({ success := true, message := "ID photo uploaded successfully",
         verification := some dbv }, db')

/-! ### A small concrete database used to exercise the theorems -/

/-- A stored test with two questions. -/
def cTest1 : Test :=
  { test_id := 1, skill := "algebra", num_questions := 2, duration := 30 }

/-- A second stored test with one question. -/
def cTest2 : Test :=
  { test_id := 2, skill := "logic", num_questions := 1, duration := 10 }

def cQ1 : Question := { id := 1, test_id := 1, question_text := "q1" }

def cQ2 : Question := { id := 2, test_id := 1, question_text := "q2" }

def cQ3 : Question := { id := 3, test_id := 2, question_text := "q3" }

def cO1 : AnswerOption :=
  { id := 1, question_id := 1, option_text := "a", is_correct := true }

def cO2 : AnswerOption :=
  { id := 2, question_id := 1, option_text := "b", is_correct := false }

def cO3 : AnswerOption :=
  { id := 3, question_id := 2, option_text := "c", is_correct := true }

def cO4 : AnswerOption :=
  { id := 4, question_id := 2, option_text := "d", is_correct := false }

def cO5 : AnswerOption :=
  { id := 5, question_id := 3, option_text := "e", is_correct := true }

def cUser1 : User :=
  { id := 1, name := some "Asha", email := some "asha@example.com",
    role := "candidate" }

/-- An in-progress session of `cUser1` on test 1. -/
def cS1 : TestSession :=
  { id := 1, test_id := 1, user_id := 1, user_name := some "Asha",
    user_email := some "asha@example.com", start_time := 5, end_time := none,
    score := none, total_questions := none, percentage := none,
    status := "in_progress" }

/-- An already terminated session on test 1. -/
def cS2 : TestSession :=
  { id := 2, test_id := 1, user_id := 1, user_name := some "Asha",
    user_email := some "asha@example.com", start_time := 6,
    end_time := some 20, score := none, total_questions := none,
    percentage := none, status := "terminated" }

/-- An already completed session on test 1. -/
def cS3 : TestSession :=
  { id := 3, test_id := 1, user_id := 1, user_name := some "Asha",
    user_email := some "asha@example.com", start_time := 7,
    end_time := some 30, score := some 1, total_questions := some 2,
    percentage := some 50, status := "completed" }

/-- A violation inserted first but carrying the later timestamp. -/
def cV1 : Violation :=
  { id := 1, session_id := 1, timestamp := 10,
    violation_type := "tab_switch", details := some (Json.obj []),
    filepath := none }

/-- A violation inserted second but carrying the earlier timestamp. -/
def cV2 : Violation :=
  { id := 2, session_id := 1, timestamp := 5,
    violation_type := "window_blur", details := some (Json.obj []),
    filepath := some "shot.png" }

def cFV1 : FaceVerification :=
  { id := 1, user_id := 1, id_photo_path := some "old.jpg",
    is_verified := true, verification_date := 3,
    match_score := none, liveness_score := none }

/-- The concrete database state. -/
def cDB : DB :=
  { tests := [cTest1, cTest2], users := [cUser1],
    questions := [cQ1, cQ2, cQ3], options := [cO1, cO2, cO3, cO4, cO5],
    sessions := [cS1, cS2, cS3], violations := [cV1, cV2],
    userResponses := [], faceVerifications := [cFV1],
    nextUserId := 10, nextSessionId := 10, nextViolationId := 10,
    nextResponseId := 10, nextVerificationId := 10 }

/-- A create request whose email matches the stored user `cUser1`. -/
def cReq : TestSessionCreate :=
  { test_id := 1, user_id := 0, user_name := none,
    user_email := some "asha@example.com" }

/-- A create request for an email not yet stored, with a name. -/
def cReqNew : TestSessionCreate :=
  { test_id := 1, user_id := 0, user_name := some "Binu",
    user_email := some "binu@example.com" }

/-- A create request for an email not yet stored, without a name. -/
def cReqNoName : TestSessionCreate :=
  { test_id := 1, user_id := 0, user_name := none,
    user_email := some "carl@example.com" }

/-- A create request naming a test id that is not stored. -/
def cBadReq : TestSessionCreate :=
  { test_id := 42, user_id := 0, user_name := some "Binu",
    user_email := some "binu@example.com" }

/-- The session `create_session cDB cReq 99` inserts. -/
def cCreated : TestSession :=
  { id := 10, test_id := 1, user_id := 1, user_name := some "Asha",
    user_email := some "asha@example.com", start_time := 99,
    end_time := none, score := none, total_questions := none,
    percentage := none, status := "in_progress" }

/-- The database after `create_session cDB cReq 99`. -/
def cDBAfterCreate : DB :=
  { cDB with sessions := cDB.sessions ++ [cCreated], nextSessionId := 11 }

def cAns1 : SubmittedAnswer :=
  { question_id := some 1, selected_option_id := some 1, answer := none }

def cAns2 : SubmittedAnswer :=
  { question_id := some 2, selected_option_id := some 4, answer := none }

def cAns3 : SubmittedAnswer :=
  { question_id := some 3, selected_option_id := some 5, answer := none }

def cAns4 : SubmittedAnswer :=
  { question_id := some 2, selected_option_id := none, answer := some 3 }

/-- A submission for session 1 mixing a correct answer, a wrong answer, an
answer for another test's question, and a legacy-format answer. -/
def cSub : TestSessionSubmit :=
  { session_id := 1, answers := [cAns1, cAns2, cAns3, cAns4],
    end_time := some 40 }

/-- An empty submission for the in-progress session 1. -/
def cSubEmpty : TestSessionSubmit :=
  { session_id := 1, answers := [], end_time := none }

/-- An empty submission targeting the already terminated session 2. -/
def cSubTerm : TestSessionSubmit :=
  { session_id := 2, answers := [], end_time := none }

/-- A submission naming a session id that is not stored. -/
def cSubMissing : TestSessionSubmit :=
  { session_id := 42, answers := [], end_time := none }

/-- The violation row `log_violation cDB 1 "tab_switch" none (some "s.png")
(some 33) 7` inserts. -/
def cNewV : Violation :=
  { id := 10, session_id := 1, timestamp := 33,
    violation_type := "tab_switch", details := some (Json.obj []),
    filepath := some "s.png" }

/-! ### Helper lemmas shared by several theorems -/

/-- `terminate_session` on a session whose status is already terminal
returns the stored session and leaves the database untouched. -/
theorem terminateSession_terminal (db : DB) (sid : Nat) (now : Time)
    (s : TestSession)
    (hfind : db.sessions.find? (fun x => x.id == sid) = some s)
    (hstatus : s.status = "completed" ∨ s.status = "terminated") :
    terminateSession db sid now = .ok (db, s) := by
  unfold terminateSession
  rw [hfind]
  rcases hstatus with h | h <;> simp [h]

/-- Any session returned by a successful `create_session` has status
`"in_progress"`, `start_time` the current time, and the completion
columns unset. -/
theorem createSession_ok_fields (db : DB) (req : TestSessionCreate)
    (now : Time) (db' : DB) (s : TestSession)
    (h : createSession db req now = .ok (db', s)) :
    s.status = "in_progress" ∧ s.start_time = now ∧ s.end_time = none ∧
      s.score = none ∧ s.total_questions = none ∧ s.percentage = none := by
  unfold createSession at h
  repeat' split at h
  any_goals exact Except.noConfusion h
  all_goals
    obtain ⟨-, h2⟩ := Prod.mk.inj (Except.ok.inj h)
  all_goals subst h2
  all_goals exact ⟨rfl, rfl, rfl, rfl, rfl, rfl⟩

/-- `create_session` raises when the requested test is unknown or when the
request carries no (nonempty) `user_email`. -/
theorem createSession_error_cases (db : DB) (req : TestSessionCreate)
    (now : Time)
    (h : db.tests.find? (fun t => t.test_id == req.test_id) = none ∨
      strFalsy req.user_email = true) :
    ∃ e, createSession db req now = .error e := by
  unfold createSession
  rcases h with h | h
  · rw [h]; exact ⟨_, rfl⟩
  · cases hf : db.tests.find? (fun t => t.test_id == req.test_id) with
    | none => exact ⟨_, rfl⟩
    | some t =>
      cases he : req.user_email with
      | none => exact ⟨_, rfl⟩
      | some em =>
        rw [he] at h
        simp only [strFalsy] at h
        simp [h]

/-- The score accumulated by the answer loop is the number of submitted
answers satisfying `answerScores`. -/
theorem processAnswers_fst_eq_countP (questions : List Question)
    (options : List AnswerOption) (sid : Nat) (nid : Nat)
    (answers : List SubmittedAnswer) :
    (processAnswers questions options sid nid answers).1 =
      answers.countP (answerScores questions options) := by
  induction answers generalizing nid with
  | nil => rfl
  | cons a rest ih =>
    rw [List.countP_cons]
    simp only [processAnswers]
    cases hq : a.question_id with
    | none => simp [answerScores, hq, ih]
    | some qid =>
      cases hs : resolveSelected a with
      | none => simp [answerScores, hq, hs, ih]
      | some oid =>
        cases hfq : questions.find? (fun q => q.id == qid) with
        | none => simp [answerScores, hq, hs, hfq, ih]
        | some q =>
          cases hfo : options.find? (fun o => o.id == oid) with
          | none => simp [answerScores, hq, hs, hfq, hfo, ih]
          | some o =>
            simp only [answerScores, hq, hs, hfq, hfo, Option.isSome_some,
              Bool.true_and]
            rw [ih]

/-- Exact description of the session returned by a successful
`submit_test`: the stored session with the completion columns filled in
from the computed score. -/
theorem submitTest_ok_spec (db : DB) (sub : TestSessionSubmit) (now : Time)
    (session : TestSession)
    (hf : db.sessions.find? (fun s => s.id == sub.session_id) = some session) :
    (submitTest db sub now true).1 = .ok
      { session with
        end_time := some (sub.end_time.getD now),
        score := some (scoredCount db session.test_id sub.answers),
        total_questions := some (testQuestions db session.test_id).length,
        percentage := some
          (if 0 < (testQuestions db session.test_id).length then
            (scoredCount db session.test_id sub.answers : ℚ) /
              ((testQuestions db session.test_id).length : ℚ) * 100
          else 0),
        status := "completed" } := by
  unfold submitTest
  rw [hf]
  simp [scoredCount, processAnswers_fst_eq_countP]

/-- When any step of `submit_test` raises, the transaction is rolled back:
the returned database is the input database, so the session row and the
`user_responses` table are unchanged. -/
theorem submitTest_error_rollback (db : DB) (sub : TestSessionSubmit)
    (now : Time) (c : Bool) (e : String)
    (h : (submitTest db sub now c).1 = .error e) :
    (submitTest db sub now c).2 = db := by
  unfold submitTest at h ⊢
  cases hf : db.sessions.find? (fun s => s.id == sub.session_id) with
  | none => rfl
  | some session =>
    cases c with
    | false => rfl
    | true => rw [hf] at h; simp at h

/-- `log_violation` on an unknown session id stores nothing and returns
`None`. -/
theorem logViolation_none_of_no_session (db : DB) (sid : Nat) (vt : String)
    (d : Option Json) (fp : Option String) (ts : Option Time) (now : Time)
    (h : db.sessions.find? (fun s => s.id == sid) = none) :
    logViolation db sid vt d fp ts now = (none, db) := by
  unfold logViolation
  rw [h]

/-- Every violation row present after `log_violation` was either already
stored or refers to an existing session. -/
theorem logViolation_rows_tied (db : DB) (sid : Nat) (vt : String)
    (d : Option Json) (fp : Option String) (ts : Option Time) (now : Time) :
    ∀ v ∈ (logViolation db sid vt d fp ts now).2.violations,
      v ∈ db.violations ∨ ∃ s ∈ db.sessions, s.id = v.session_id := by
  intro v hv
  unfold logViolation at hv
  cases hf : db.sessions.find? (fun s => s.id == sid) with
  | none => rw [hf] at hv; exact .inl hv
  | some s =>
    rw [hf] at hv
    simp only [List.mem_append, List.mem_singleton] at hv
    rcases hv with hv | hv
    · exact .inl hv
    · refine .inr ⟨s, List.mem_of_find?_eq_some hf, ?_⟩
      have hp := List.find?_some hf
      subst hv
      simpa using hp

/-- The violation row created by `log_violation` carries the given type,
the given details or the empty JSON object, the given filepath, and the
given timestamp or the current time. -/
theorem logViolation_row_fields (db : DB) (sid : Nat) (vt : String)
    (d : Option Json) (fp : Option String) (ts : Option Time) (now : Time)
    (v : Violation)
    (h : (logViolation db sid vt d fp ts now).1 = some v) :
    v.violation_type = vt ∧ v.details = some (d.getD (Json.obj [])) ∧
      v.filepath = fp ∧ v.timestamp = ts.getD now := by
  unfold logViolation at h
  cases hf : db.sessions.find? (fun s => s.id == sid) with
  | none => rw [hf] at h; exact Option.noConfusion h
  | some s =>
    rw [hf] at h
    simp only [Option.some.injEq] at h
    subst h
    exact ⟨rfl, rfl, rfl, rfl⟩

/-- A successful `submit_test` returns a session whose status is
`"completed"`. -/
theorem submitTest_ok_status (db : DB) (sub : TestSessionSubmit)
    (now : Time) (c : Bool) (s' : TestSession)
    (h : (submitTest db sub now c).1 = .ok s') :
    s'.status = "completed" := by
  unfold submitTest at h
  cases hf : db.sessions.find? (fun s => s.id == sub.session_id) with
  | none => rw [hf] at h; simp at h
  | some session =>
    rw [hf] at h
    cases c with
    | false => simp at h
    | true =>
      simp only [if_true, Except.ok.injEq] at h
      subst h
      rfl

/-- Sorting by primary key is the identity on a list whose ids are
strictly increasing, i.e. on rows kept in insertion order. -/
theorem sortById_eq_self (l : List TestSession)
    (h : l.Pairwise (fun a b => a.id < b.id)) : sortById l = l :=
  List.Sorted.insertionSort_eq (List.Pairwise.imp Nat.le_of_lt h)

/-- `get_sessions_by_user` returns the filtered rows in insertion order
when the stored ids are strictly increasing. -/
theorem getSessionsByUser_insertion_order (db : DB) (uid : Nat)
    (h : db.sessions.Pairwise (fun a b => a.id < b.id)) :
    getSessionsByUser db uid =
      db.sessions.filter (fun s => s.user_id == uid) :=
  sortById_eq_self _ (List.Pairwise.filter _ h)

/-- `get_sessions_by_test` returns the filtered rows in insertion order
when the stored ids are strictly increasing. -/
theorem getSessionsByTest_insertion_order (db : DB) (tid : Nat)
    (h : db.sessions.Pairwise (fun a b => a.id < b.id)) :
    getSessionsByTest db tid =
      db.sessions.filter (fun s => s.test_id == tid) :=
  sortById_eq_self _ (List.Pairwise.filter _ h)

/-- `get_all_sessions` returns the stored rows in insertion order when the
stored ids are strictly increasing. -/
theorem getAllSessions_insertion_order (db : DB)
    (h : db.sessions.Pairwise (fun a b => a.id < b.id)) :
    getAllSessions db = db.sessions :=
  sortById_eq_self _ h

/-- The violations summary lists exactly the session's violations, but in
ascending `timestamp` order. -/
theorem summary_violations_sorted_by_timestamp (db : DB) (sid : Nat) :
    ((getSessionViolationsSummary db sid).violations).Perm
      (db.violations.filter (fun v => v.session_id == sid)) ∧
    ((getSessionViolationsSummary db sid).violations).Pairwise
      (fun a b => a.timestamp ≤ b.timestamp) := by
  constructor
  · exact List.perm_insertionSort _ _
  · haveI : IsTotal Violation (fun a b => a.timestamp ≤ b.timestamp) :=
      ⟨fun a b => Nat.le_total _ _⟩
    haveI : IsTrans Violation (fun a b => a.timestamp ≤ b.timestamp) :=
      ⟨fun a b c => Nat.le_trans⟩
    exact List.sorted_insertionSort _ _

/-- Replacing, by primary key, the first row matching a predicate keeps it
the first match, provided the replacement still matches and the ids are
distinct. -/
theorem find?_map_replace_first (l : List FaceVerification) (uid : Nat)
    (f f' : FaceVerification)
    (hf : l.find? (fun g => g.user_id == uid) = some f)
    (hids : l.Pairwise (fun a b => a.id ≠ b.id))
    (huid : f'.user_id = f.user_id) :
    (l.map (fun g => if g.id == f.id then f' else g)).find?
      (fun g => g.user_id == uid) = some f' := by
  induction l with
  | nil => exact Option.noConfusion hf
  | cons g t ih =>
    rw [List.pairwise_cons] at hids
    by_cases hg : (g.user_id == uid) = true
    · rw [List.find?_cons_of_pos (p := fun x : FaceVerification => x.user_id == uid) _ hg] at hf
      have hfg : g = f := by simpa using hf
      subst hfg
      have hp : (f'.user_id == uid) = true := by rw [huid]; exact hg
      rw [List.map_cons, if_pos (beq_self_eq_true g.id)]
      exact List.find?_cons_of_pos (p := fun x : FaceVerification => x.user_id == uid) _ hp
    · rw [List.find?_cons_of_neg (p := fun x : FaceVerification => x.user_id == uid) _ hg] at hf
      have hmem : f ∈ t := List.mem_of_find?_eq_some hf
      have hne : ¬(g.id == f.id) = true := by
        simpa using hids.1 f hmem
      rw [List.map_cons, if_neg hne,
        List.find?_cons_of_neg (p := fun x : FaceVerification => x.user_id == uid) _ hg]
      exact ih hf hids.2

/-- With a known test and a stored user matching the request's email,
`create_session` builds the session from the stored user's id and name. -/
theorem createSession_existing_user (db : DB) (req : TestSessionCreate)
    (now : Time) (em : String) (t : Test) (u : User)
    (hem : req.user_email = some em) (hne : em.isEmpty = false)
    (htest : db.tests.find? (fun x => x.test_id == req.test_id) = some t)
    (hu : db.users.find? (fun x => x.email == some em) = some u) :
    ∃ db', createSession db req now = .ok (db',
      { id := db.nextSessionId, test_id := req.test_id, user_id := u.id,
        user_name := u.name, user_email := some em, start_time := now,
        end_time := none, score := none, total_questions := none,
        percentage := none, status := "in_progress" }) := by
  unfold createSession
  rw [htest, hem]
  simp only [hne, Bool.false_eq_true, if_false, hu]
  exact ⟨_, rfl⟩

/-- With a known test and no stored user matching the request's email,
`create_session` inserts a new `"candidate"` user built from the request
and keys the session to it. -/
theorem createSession_new_user (db : DB) (req : TestSessionCreate)
    (now : Time) (em un : String) (t : Test)
    (hem : req.user_email = some em) (hne : em.isEmpty = false)
    (htest : db.tests.find? (fun x => x.test_id == req.test_id) = some t)
    (hu : db.users.find? (fun x => x.email == some em) = none)
    (hun : req.user_name = some un) (hune : un.isEmpty = false) :
    ∃ db' s, createSession db req now = .ok (db', s) ∧
      s.user_id = db.nextUserId ∧ s.user_name = some un ∧
      db'.users = db.users ++
        [{ id := db.nextUserId, name := some un, email := some em,
           role := "candidate" }] := by
  unfold createSession
  rw [htest, hem]
  simp only [hne, Bool.false_eq_true, if_false, hu, hun, hune]
  exact ⟨_, _, rfl, rfl, rfl, rfl⟩

/-- With a known test, an unknown email and no usable `user_name`,
`create_session` raises. -/
theorem createSession_missing_name (db : DB) (req : TestSessionCreate)
    (now : Time) (em : String) (t : Test)
    (hem : req.user_email = some em) (hne : em.isEmpty = false)
    (htest : db.tests.find? (fun x => x.test_id == req.test_id) = some t)
    (hu : db.users.find? (fun x => x.email == some em) = none)
    (hname : strFalsy req.user_name = true) :
    createSession db req now = .error
      "User not found. Please provide user_name to create a new user." := by
  unfold createSession
  rw [htest, hem]
  simp only [hne, Bool.false_eq_true, if_false, hu]
  cases hn : req.user_name with
  | none => rfl
  | some un =>
    rw [hn] at hname
    simp only [strFalsy] at hname
    simp only [hname, if_true]

/-- The database `upload_id_photo` commits when the user already has a
face-verification row: the same table with that row replaced in place. -/
theorem uploadIdPhoto_state_existing (db : DB) (uid : Nat) (url : String)
    (fe il : Bool) (fc : Nat) (now : Time) (f : FaceVerification)
    (hf : db.faceVerifications.find? (fun g => g.user_id == uid) = some f) :
    (uploadIdPhoto db uid true url fe il fc now).2 =
      { db with
        faceVerifications := db.faceVerifications.map
          (fun g => if g.id == f.id then
            { f with
              id_photo_path := some url,
              is_verified := false,
              verification_date := now }
            else g) } := by
  unfold uploadIdPhoto
  rw [hf]
  cases fe <;> cases il <;> cases hc : (fc == 0) <;> rfl

/-- The database `upload_id_photo` commits when the user has no
face-verification row yet: the table with one new row appended. -/
theorem uploadIdPhoto_state_new (db : DB) (uid : Nat) (url : String)
    (fe il : Bool) (fc : Nat) (now : Time)
    (hf : db.faceVerifications.find? (fun g => g.user_id == uid) = none) :
    (uploadIdPhoto db uid true url fe il fc now).2 =
      { db with
        faceVerifications := db.faceVerifications ++
          [{ id := db.nextVerificationId, user_id := uid,
             id_photo_path := some url, is_verified := false,
             verification_date := now, match_score := none,
             liveness_score := none }],
        nextVerificationId := db.nextVerificationId + 1 } := by
  unfold uploadIdPhoto
  rw [hf]
  cases fe <;> cases il <;> cases hc : (fc == 0) <;> rfl

/-- Replacing, by primary key, the first row matching a predicate with a
row that still matches keeps the number of matching rows unchanged. -/
theorem countP_map_replace (l : List FaceVerification) (uid : Nat)
    (f f' : FaceVerification)
    (hf : l.find? (fun g => g.user_id == uid) = some f)
    (hids : l.Pairwise (fun a b => a.id ≠ b.id))
    (huid : f'.user_id = f.user_id) :
    (l.map (fun g => if g.id == f.id then f' else g)).countP
        (fun g => g.user_id == uid) =
      l.countP (fun g => g.user_id == uid) := by
  induction l with
  | nil => exact Option.noConfusion hf
  | cons g t ih =>
    rw [List.pairwise_cons] at hids
    by_cases hg : (g.user_id == uid) = true
    · rw [List.find?_cons_of_pos (p := fun x : FaceVerification =>
        x.user_id == uid) _ hg] at hf
      have hfg : g = f := by simpa using hf
      subst hfg
      have h1 : ∀ x ∈ t, (if x.id == g.id then f' else x) = id x := by
        intro x hx
        have hxg : ¬(x.id == g.id) = true := by
          simpa using Ne.symm (hids.1 x hx)
        rw [if_neg hxg]
        rfl
      have hp : (f'.user_id == uid) = true := by rw [huid]; exact hg
      rw [List.map_cons, if_pos (beq_self_eq_true g.id),
        List.map_congr_left h1, List.map_id, List.countP_cons,
        List.countP_cons, hp, hg]
    · rw [List.find?_cons_of_neg (p := fun x : FaceVerification =>
        x.user_id == uid) _ hg] at hf
      have hne : ¬(g.id == f.id) = true := by
        simpa using hids.1 f (List.mem_of_find?_eq_some hf)
      rw [List.map_cons, if_neg hne, List.countP_cons, List.countP_cons,
        ih hf hids.2]

/-! ### The claims -/

/-- C1, amended: a session is created with status `"in_progress"`;
`terminate_session` never changes a session whose status is already
`"completed"` or `"terminated"`; but `submit_test` sets the status to
`"completed"` unconditionally, without checking the current status. -/
theorem C1_session_state_machine (db : DB) (req : TestSessionCreate)
    (sub : TestSessionSubmit) (sid : Nat) (now : Time) (c : Bool) :
    (∀ db' s, createSession db req now = .ok (db', s) →
      s.status = "in_progress") ∧
    (∀ s, db.sessions.find? (fun x => x.id == sid) = some s →
      s.status = "completed" ∨ s.status = "terminated" →
      terminateSession db sid now = .ok (db, s)) ∧
    (∀ s', (submitTest db sub now c).1 = .ok s' → s'.status = "completed") :=
  ⟨fun db' s h => (createSession_ok_fields db req now db' s h).1,
   fun s h1 h2 => terminateSession_terminal db sid now s h1 h2,
   fun s' h => submitTest_ok_status db sub now c s' h⟩

/-- C1 witness: on the concrete database, creation yields `"in_progress"`,
terminating the completed session 3 is a no-op, and a submission for
session 1 completes it. -/
theorem C1_session_state_machine_witness :
    cCreated.status = "in_progress" ∧
    terminateSession cDB 3 99 = .ok (cDB, cS3) ∧
    (∃ s', (submitTest cDB cSubEmpty 99 true).1 = .ok s' ∧
      s'.status = "completed") := by
  have h := C1_session_state_machine cDB cReq cSubEmpty 3 99 true
  exact ⟨h.1 cDBAfterCreate cCreated rfl, h.2.1 cS3 rfl (Or.inl rfl),
    ⟨_, submitTest_ok_spec cDB cSubEmpty 99 cS1 rfl,
      h.2.2 _ (submitTest_ok_spec cDB cSubEmpty 99 cS1 rfl)⟩⟩

/-- C1 counterexample: session 2 is stored with status `"terminated"`,
yet after `submit_test` targets it the stored row has status
`"completed"` — a terminal status is not preserved by `submit_test`. -/
theorem C1_counterexample :
    ((cDB.sessions.find? (fun s => s.id == 2)).map TestSession.status =
      some "terminated") ∧
    (((submitTest cDB cSubTerm 50 true).2.sessions.find?
        (fun s => s.id == 2)).map TestSession.status = some "completed") :=
  ⟨rfl, rfl⟩

/-- C2: on an existing session, `submit_test` returns the session with
`score` the number of submitted answers whose question is stored for the
session's test and whose resolved option is stored with `is_correct`,
`total_questions` the number of stored questions, `percentage` equal to
`score/total*100` (0 for a test without questions), and status
`"completed"`. -/
theorem C2_submit_test_scoring (db : DB) (sub : TestSessionSubmit)
    (now : Time) (session : TestSession)
    (hf : db.sessions.find? (fun s => s.id == sub.session_id) =
      some session) :
    ∃ s', (submitTest db sub now true).1 = .ok s' ∧
      s'.score = some (scoredCount db session.test_id sub.answers) ∧
      s'.total_questions = some (testQuestions db session.test_id).length ∧
      s'.percentage = some
        (if 0 < (testQuestions db session.test_id).length then
          (scoredCount db session.test_id sub.answers : ℚ) /
            ((testQuestions db session.test_id).length : ℚ) * 100
        else 0) ∧
      s'.status = "completed" :=
  ⟨_, submitTest_ok_spec db sub now session hf, rfl, rfl, rfl, rfl⟩

/-- C2 witness: the mixed submission `cSub` scores 2 of the 2 stored
questions of test 1. -/
theorem C2_submit_test_scoring_witness :
    scoredCount cDB 1 cSub.answers = 2 ∧
    (testQuestions cDB 1).length = 2 ∧
    (∃ s', (submitTest cDB cSub 50 true).1 = .ok s' ∧
      s'.score = some (scoredCount cDB 1 cSub.answers) ∧
      s'.total_questions = some (testQuestions cDB 1).length ∧
      s'.percentage = some
        (if 0 < (testQuestions cDB 1).length then
          (scoredCount cDB 1 cSub.answers : ℚ) /
            ((testQuestions cDB 1).length : ℚ) * 100
        else 0) ∧
      s'.status = "completed") :=
  ⟨rfl, rfl, C2_submit_test_scoring cDB cSub 50 cS1 rfl⟩

/-- C3: `log_violation` for a session id with no stored session returns
`None` and stores nothing; every violation row present afterwards either
was already stored or is tied to an existing session. -/
theorem C3_log_violation_requires_session (db : DB) (sid : Nat)
    (vt : String) (d : Option Json) (fp : Option String) (ts : Option Time)
    (now : Time) :
    (db.sessions.find? (fun s => s.id == sid) = none →
      logViolation db sid vt d fp ts now = (none, db)) ∧
    (∀ v ∈ (logViolation db sid vt d fp ts now).2.violations,
      v ∈ db.violations ∨ ∃ s ∈ db.sessions, s.id = v.session_id) :=
  ⟨logViolation_none_of_no_session db sid vt d fp ts now,
   logViolation_rows_tied db sid vt d fp ts now⟩

/-- C3 witness: logging against the unknown session 42 stores nothing, and
the stored row `cV1` is tied to session 1, which exists. -/
theorem C3_log_violation_requires_session_witness :
    logViolation cDB 42 "tab_switch" none none none 7 = (none, cDB) ∧
    (cV1 ∈ cDB.violations ∨ ∃ s ∈ cDB.sessions, s.id = cV1.session_id) :=
  ⟨(C3_log_violation_requires_session cDB 42 "tab_switch" none none none
      7).1 rfl,
   (C3_log_violation_requires_session cDB 1 "tab_switch" none none none
      7).2 cV1 (List.Mem.head _)⟩

/-- C4: the row created by `log_violation` carries the given violation
type, the given details blob or the empty JSON object, the given optional
screenshot filepath, and the given timestamp or the current time. -/
theorem C4_violation_row_contents (db : DB) (sid : Nat) (vt : String)
    (d : Option Json) (fp : Option String) (ts : Option Time) (now : Time)
    (v : Violation)
    (h : (logViolation db sid vt d fp ts now).1 = some v) :
    v.violation_type = vt ∧ v.details = some (d.getD (Json.obj [])) ∧
      v.filepath = fp ∧ v.timestamp = ts.getD now :=
  logViolation_row_fields db sid vt d fp ts now v h

/-- C4 witness: the concrete row created for session 1. -/
theorem C4_violation_row_contents_witness :
    cNewV.violation_type = "tab_switch" ∧
    cNewV.details = some (Json.obj []) ∧
    cNewV.filepath = some "s.png" ∧
    cNewV.timestamp = 33 :=
  C4_violation_row_contents cDB 1 "tab_switch" none (some "s.png")
    (some 33) 7 cNewV rfl

/-- C5: a session returned by `create_session` starts with status
`"in_progress"`, `start_time` the current time and the completion columns
all unset, and `create_session` raises when the test does not exist or the
request carries no usable `user_email`. -/
theorem C5_create_session_spec (db : DB) (req : TestSessionCreate)
    (now : Time) :
    (∀ db' s, createSession db req now = .ok (db', s) →
      s.status = "in_progress" ∧ s.start_time = now ∧ s.end_time = none ∧
      s.score = none ∧ s.total_questions = none ∧ s.percentage = none) ∧
    ((db.tests.find? (fun t => t.test_id == req.test_id) = none ∨
        strFalsy req.user_email = true) →
      ∃ e, createSession db req now = .error e) :=
  ⟨createSession_ok_fields db req now, createSession_error_cases db req now⟩

/-- C5 witness: the concrete created session, and the error for a request
naming the unknown test 42. -/
theorem C5_create_session_spec_witness :
    (cCreated.status = "in_progress" ∧ cCreated.start_time = 99 ∧
     cCreated.end_time = none ∧ cCreated.score = none ∧
     cCreated.total_questions = none ∧ cCreated.percentage = none) ∧
    (∃ e, createSession cDB cBadReq 99 = .error e) :=
  ⟨(C5_create_session_spec cDB cReq 99).1 cDBAfterCreate cCreated rfl,
   (C5_create_session_spec cDB cBadReq 99).2 (Or.inl rfl)⟩

/-- C6, amended: the session listings (`get_sessions_by_user`,
`get_sessions_by_test`, `get_all_sessions`) return rows in insertion
order (ascending primary key); the per-session violations summary instead
returns the session's violations ordered by their `timestamp`, which can
differ from insertion order when violations carry explicit out-of-order
timestamps. -/
theorem C6_listing_order (db : DB) (uid tid sid : Nat)
    (h : db.sessions.Pairwise (fun a b => a.id < b.id)) :
    getSessionsByUser db uid =
      db.sessions.filter (fun s => s.user_id == uid) ∧
    getSessionsByTest db tid =
      db.sessions.filter (fun s => s.test_id == tid) ∧
    getAllSessions db = db.sessions ∧
    ((getSessionViolationsSummary db sid).violations).Perm
      (db.violations.filter (fun v => v.session_id == sid)) ∧
    ((getSessionViolationsSummary db sid).violations).Pairwise
      (fun a b => a.timestamp ≤ b.timestamp) :=
  ⟨getSessionsByUser_insertion_order db uid h,
   getSessionsByTest_insertion_order db tid h,
   getAllSessions_insertion_order db h,
   (summary_violations_sorted_by_timestamp db sid).1,
   (summary_violations_sorted_by_timestamp db sid).2⟩

/-- C6 witness: the concrete database's listings and summary. -/
theorem C6_listing_order_witness :
    getSessionsByUser cDB 1 =
      cDB.sessions.filter (fun s => s.user_id == 1) ∧
    getSessionsByTest cDB 1 =
      cDB.sessions.filter (fun s => s.test_id == 1) ∧
    getAllSessions cDB = cDB.sessions ∧
    ((getSessionViolationsSummary cDB 1).violations).Perm
      (cDB.violations.filter (fun v => v.session_id == 1)) ∧
    ((getSessionViolationsSummary cDB 1).violations).Pairwise
      (fun a b => a.timestamp ≤ b.timestamp) :=
  C6_listing_order cDB 1 1 1 (by decide)

/-- C6 counterexample: violation 1 was inserted before violation 2 but
carries the later timestamp, so the summary lists them as `[2, 1]` — not
the insertion order `[1, 2]`. -/
theorem C6_counterexample :
    ((getSessionViolationsSummary cDB 1).violations.map Violation.id =
      [2, 1]) ∧
    ((cDB.violations.filter (fun v => v.session_id == 1)).map Violation.id
      = [1, 2]) ∧
    (getSessionViolationsSummary cDB 1).violations ≠
      cDB.violations.filter (fun v => v.session_id == 1) :=
  ⟨rfl, rfl, fun h =>
    absurd (congrArg (List.map Violation.id) h) (by decide)⟩

/-- C7: `upload_id_photo` keeps at most one face-verification row per
user: with an existing row the table keeps its length and its per-user
row count, and the user's row is updated in place (new photo path,
`is_verified` reset, date refreshed); only without an existing row is a
new row appended. -/
theorem C7_face_verification_single_row (db : DB) (uid : Nat)
    (url : String) (fe il : Bool) (fc : Nat) (now : Time)
    (hids : db.faceVerifications.Pairwise (fun a b => a.id ≠ b.id)) :
    (∀ f, db.faceVerifications.find? (fun g => g.user_id == uid) = some f →
      (uploadIdPhoto db uid true url fe il fc
          now).2.faceVerifications.length =
        db.faceVerifications.length ∧
      (uploadIdPhoto db uid true url fe il fc
          now).2.faceVerifications.countP (fun g => g.user_id == uid) =
        db.faceVerifications.countP (fun g => g.user_id == uid) ∧
      (uploadIdPhoto db uid true url fe il fc
          now).2.faceVerifications.find? (fun g => g.user_id == uid) =
        some { f with
               id_photo_path := some url,
               is_verified := false,
               verification_date := now }) ∧
    (db.faceVerifications.find? (fun g => g.user_id == uid) = none →
      (uploadIdPhoto db uid true url fe il fc now).2.faceVerifications =
        db.faceVerifications ++
          [{ id := db.nextVerificationId, user_id := uid,
             id_photo_path := some url, is_verified := false,
             verification_date := now, match_score := none,
             liveness_score := none }]) := by
  constructor
  · intro f hf
    rw [uploadIdPhoto_state_existing db uid url fe il fc now f hf]
    exact ⟨List.length_map _ _,
      countP_map_replace _ uid f _ hf hids rfl,
      find?_map_replace_first _ uid f _ hf hids rfl⟩
  · intro hf
    rw [uploadIdPhoto_state_new db uid url fe il fc now hf]

/-- C7 witness: re-uploading for user 1 updates the single stored row in
place; uploading for the unknown user 5 appends a fresh row. -/
theorem C7_face_verification_single_row_witness :
    ((uploadIdPhoto cDB 1 true "new.jpg" true true 1
        77).2.faceVerifications.length =
      cDB.faceVerifications.length ∧
     (uploadIdPhoto cDB 1 true "new.jpg" true true 1
        77).2.faceVerifications.countP (fun g => g.user_id == 1) =
      cDB.faceVerifications.countP (fun g => g.user_id == 1) ∧
     (uploadIdPhoto cDB 1 true "new.jpg" true true 1
        77).2.faceVerifications.find? (fun g => g.user_id == 1) =
      some { cFV1 with
             id_photo_path := some "new.jpg",
             is_verified := false,
             verification_date := 77 }) ∧
    (uploadIdPhoto cDB 5 true "five.jpg" true true 1
        77).2.faceVerifications =
      cDB.faceVerifications ++
        [{ id := 10, user_id := 5, id_photo_path := some "five.jpg",
           is_verified := false, verification_date := 77,
           match_score := none, liveness_score := none }] :=
  ⟨(C7_face_verification_single_row cDB 1 "new.jpg" true true 1 77
      (by decide)).1 cFV1 rfl,
   (C7_face_verification_single_row cDB 5 "five.jpg" true true 1 77
      (by decide)).2 rfl⟩

/-- C8: `terminate_session` on a session already `"completed"` or
`"terminated"` returns the stored session without raising and leaves the
database — hence every field of the row — unchanged. -/
theorem C8_terminate_terminal_noop (db : DB) (sid : Nat) (now : Time)
    (s : TestSession)
    (hfind : db.sessions.find? (fun x => x.id == sid) = some s)
    (hstatus : s.status = "completed" ∨ s.status = "terminated") :
    terminateSession db sid now = .ok (db, s) :=
  terminateSession_terminal db sid now s hfind hstatus

/-- C8 witness: terminating the already terminated session 2 returns it
untouched. -/
theorem C8_terminate_terminal_noop_witness :
    terminateSession cDB 2 99 = .ok (cDB, cS2) :=
  C8_terminate_terminal_noop cDB 2 99 cS2 rfl (Or.inr rfl)

/-- C9: the email is the primary identifier in `create_session`: an
existing user's stored id and name are used (the request's name is
ignored — the created session does not depend on it); otherwise a new
`"candidate"` user is created, and a missing `user_name` raises. -/
theorem C9_email_primary_identifier (db : DB) (req : TestSessionCreate)
    (now : Time) (em : String) (t : Test)
    (hem : req.user_email = some em) (hne : em.isEmpty = false)
    (htest : db.tests.find? (fun x => x.test_id == req.test_id) = some t) :
    (∀ u, db.users.find? (fun x => x.email == some em) = some u →
      ∃ db', createSession db req now = .ok (db',
        { id := db.nextSessionId, test_id := req.test_id, user_id := u.id,
          user_name := u.name, user_email := some em, start_time := now,
          end_time := none, score := none, total_questions := none,
          percentage := none, status := "in_progress" })) ∧
    (db.users.find? (fun x => x.email == some em) = none →
      (strFalsy req.user_name = true →
        createSession db req now = .error
          "User not found. Please provide user_name to create a new user.") ∧
      ∀ un, req.user_name = some un → un.isEmpty = false →
        ∃ db' s, createSession db req now = .ok (db', s) ∧
          s.user_id = db.nextUserId ∧ s.user_name = some un ∧
          db'.users = db.users ++
            [{ id := db.nextUserId, name := some un, email := some em,
               role := "candidate" }]) :=
  ⟨fun u hu =>
    createSession_existing_user db req now em t u hem hne htest hu,
   fun hu =>
    ⟨fun hname =>
      createSession_missing_name db req now em t hem hne htest hu hname,
     fun un hun hune =>
      createSession_new_user db req now em un t hem hne htest hu hun hune⟩⟩

/-- C9 witness: a request with the stored email creates the session from
the stored user; a fresh email with a name creates a candidate user; a
fresh email without a name raises. -/
theorem C9_email_primary_identifier_witness :
    (∃ db', createSession cDB cReq 99 = .ok (db', cCreated)) ∧
    (∃ db' s, createSession cDB cReqNew 99 = .ok (db', s) ∧
      s.user_id = 10 ∧ s.user_name = some "Binu" ∧
      db'.users = cDB.users ++
        [{ id := 10, name := some "Binu", email := some "binu@example.com",
           role := "candidate" }]) ∧
    createSession cDB cReqNoName 99 = .error
      "User not found. Please provide user_name to create a new user." :=
  ⟨(C9_email_primary_identifier cDB cReq 99 "asha@example.com" cTest1 rfl
      rfl rfl).1 cUser1 rfl,
   ((C9_email_primary_identifier cDB cReqNew 99 "binu@example.com" cTest1
      rfl rfl rfl).2 rfl).2 "Binu" rfl rfl,
   ((C9_email_primary_identifier cDB cReqNoName 99 "carl@example.com"
      cTest1 rfl rfl rfl).2 rfl).1 rfl⟩

/-- C10: when `submit_test` raises (missing session, or a failing
commit), the transaction is rolled back: the returned database is the
input database, so the session row and the `user_responses` table keep
their previous contents, and the error is re-raised to the caller. -/
theorem C10_submit_test_atomic (db : DB) (sub : TestSessionSubmit)
    (now : Time) (c : Bool) (e : String)
    (h : (submitTest db sub now c).1 = .error e) :
    (submitTest db sub now c).2 = db :=
  submitTest_error_rollback db sub now c e h

/-- C10 witness: submitting to the unknown session 42 errors and leaves
the database unchanged. -/
theorem C10_submit_test_atomic_witness :
    (submitTest cDB cSubMissing 7 true).2 = cDB :=
  C10_submit_test_atomic cDB cSubMissing 7 true "Test session not found"
    rfl

end Proctoring
